import Mathlib

/-!
# AstroMind fatigue monitor — verification of the core logic

Shallow embedding of the per-frame fatigue classifier and session
aggregator of `src/app.py` (the only source file).  The per-frame loop
body (lines 93–176) is modelled as a pure step function on an explicit
session state; wall-clock dependent quantities (`time.time()` values)
are passed in as a rational timestamp, and the per-frame face-detection
outcome as an `Option` sample.  Quantities that the source computes with
Python floats (EAR, MAR, thresholds, timestamps) are modelled with exact
rationals; the landmark geometry of `calculate_distance` is modelled
over the reals.
-/

set_option autoImplicit false

namespace Astromind

/-- Threshold from app.py line 14: `EAR_THRESHOLD = 0.20`. -/
def EAR_THRESHOLD : ℚ := 20/100

/-- Threshold from app.py line 15: `MAR_THRESHOLD = 0.40`. -/
def MAR_THRESHOLD : ℚ := 40/100

/-- Limit from app.py line 16: `MICROSLEEP_LIMIT = 15`. -/
def MICROSLEEP_LIMIT : Nat := 15

/-- Limit from app.py line 17: `EMERGENCY_LIMIT = 100`. -/
def EMERGENCY_LIMIT : Nat := 100

/-- Python `int()` on a rational: truncation toward zero (app.py applies
`int(...)` only to nonnegative wall-clock values, where it agrees with
the floor). -/
def pyInt (q : ℚ) : ℤ :=
  if 0 ≤ q then Int.floor q else Int.ceil q

/-- A frame's biometric sample when a face is detected: the eye aspect
ratio and mouth aspect ratio computed at app.py lines 100–109. -/
structure FrameSample where
  ear : ℚ
  mar : ℚ
deriving DecidableEq, Repr

/-- The core mutable session state of app.py (lines 48–53): the two
hysteresis counters, the two discrete event totals, and the two
append-only history buffers. -/
structure MissionState where
  drowsy_counter : Nat
  yawn_counter : Nat
  total_microsleeps : Nat
  total_yawns : Nat
  ear_history : List ℚ
  mar_history : List ℚ
deriving DecidableEq, Repr

/-- The alarm stages of the per-frame status display (spec §3
`AlarmStage`): `NONE` is the default `"SYSTEM: ONLINE"` banner, the
others are the texts set at app.py lines 141–170. -/
inductive AlarmStage where
  | NONE
  | PRAISE
  | CAUTION
  | CRITICAL
  | EMERGENCY
  | YAWN_WARNING
deriving DecidableEq, Repr

/-- Flash gate of the praise banner, app.py line 142:
`int(time.time()) % 20 == 0`. -/
def praiseFlash (t : ℚ) : Bool :=
  pyInt t % 20 == 0

/-- Telemetry sub-sampling gate, app.py line 175:
`int(time.time() * 10) % 10 == 0`. -/
def shouldLog (t : ℚ) : Bool :=
  pyInt (t * 10) % 10 == 0

/-- Simulated heart rate, app.py line 174: `70 + (int(time.time() * 2) % 15)`. -/
def simulatedBpm (t : ℚ) : ℤ :=
  70 + pyInt (t * 2) % 15

/-- The status banner computed by the sequential overwrite logic of
app.py lines 139–170, as a function of the frame's ratios, the already
updated counters, and the praise-flash gate.  The initial value is the
default of line 88; the praise rule (line 141), the `if`/`elif` eye
chain (lines 147–165) and the final yawn `if` (line 168) overwrite it in
source order. -/
def statusStage (ear mar : ℚ) (drowsy_counter yawn_counter : Nat)
    (flash : Bool) : AlarmStage :=
  let s0 := AlarmStage.NONE
  let s1 := if ear > 25/100 ∧ mar < 20/100 ∧ drowsy_counter = 0 ∧ flash = true
    then AlarmStage.PRAISE else s0
  let s2 :=
    if drowsy_counter > 5 ∧ drowsy_counter < MICROSLEEP_LIMIT then
      AlarmStage.CAUTION
    else if drowsy_counter ≥ MICROSLEEP_LIMIT ∧ drowsy_counter < EMERGENCY_LIMIT then
      AlarmStage.CRITICAL
    else if drowsy_counter ≥ EMERGENCY_LIMIT then
      AlarmStage.EMERGENCY
    else s1
  if yawn_counter > 10 ∧ drowsy_counter < MICROSLEEP_LIMIT then
    AlarmStage.YAWN_WARNING
  else s2

/-- One pass of the state-mutating part of the frame loop (app.py lines
93–137).  `none` models a frame with no detected face: the whole
`if results.multi_face_landmarks` block is skipped and the state is
untouched.  On a detected face: histories are appended (lines 103, 110),
the hysteresis counters update (lines 124–133), and the event totals
rise on the equality edge (lines 136–137). -/
def stepFrame (s : MissionState) (inp : Option FrameSample) : MissionState :=
  match inp with
  | none => s
  | some f =>
      let d := if f.ear < EAR_THRESHOLD then s.drowsy_counter + 1 else 0
      let y := if f.mar > MAR_THRESHOLD then s.yawn_counter + 1 else 0
      { drowsy_counter := d
        yawn_counter := y
        total_microsleeps :=
          if d = MICROSLEEP_LIMIT then s.total_microsleeps + 1
          else s.total_microsleeps
        total_yawns :=
          if y = 15 then s.total_yawns + 1 else s.total_yawns
        ear_history := s.ear_history ++ [f.ear]
        mar_history := s.mar_history ++ [f.mar] }

/-- The status banner produced by a whole frame: the default `NONE` when
no face is detected (the rules of lines 139–170 are inside the face
branch and never run), otherwise `statusStage` applied to the counters
as updated by this frame. -/
def frameStage (s : MissionState) (inp : Option FrameSample) (t : ℚ) :
    AlarmStage :=
  match inp with
  | none => AlarmStage.NONE
  | some f =>
      statusStage f.ear f.mar (stepFrame s (some f)).drowsy_counter
        (stepFrame s (some f)).yawn_counter (praiseFlash t)

/-- Whether this frame writes a telemetry row (app.py lines 172–176):
the `log_writer.writerow` call is inside the face branch and gated by
`shouldLog` on the wall-clock timestamp. -/
def frameLogs (inp : Option FrameSample) (t : ℚ) : Bool :=
  match inp with
  | none => false
  | some _ => shouldLog t

/-- Run of the frame loop over a list of per-frame detection outcomes. -/
def runFrames (s : MissionState) (l : List (Option FrameSample)) :
    MissionState :=
  l.foldl stepFrame s

/-- The end-of-mission grades of app.py lines 215–218. -/
inductive MissionGrade where
  | S
  | A
  | C
  | F
deriving DecidableEq, Repr

/-- Grading logic of app.py lines 215–218, an `if`/`elif` chain in which
the first matching tier wins. -/
def mission_grade (total_microsleeps total_yawns : Nat) : MissionGrade :=
  if total_microsleeps = 0 ∧ total_yawns < 2 then MissionGrade.S
  else if total_microsleeps < 3 then MissionGrade.A
  else if total_microsleeps < 6 then MissionGrade.C
  else MissionGrade.F

/-- Average EAR at session end, app.py line 212:
`sum(ear_history) / len(ear_history) if ear_history else 0`. -/
def avg_ear (h : List ℚ) : ℚ :=
  if h = [] then 0 else h.sum / (h.length : ℚ)

/-- A 2-D face landmark as used by `calculate_distance` (app.py works in
the normalized landmark plane; we model coordinates as reals). -/
structure LandmarkPoint where
  x : ℝ
  y : ℝ

/-- Euclidean distance helper, app.py lines 63–64. -/
noncomputable def calculate_distance (p1 p2 : LandmarkPoint) : ℝ :=
  Real.sqrt ((p1.x - p2.x)^2 + (p1.y - p2.y)^2)

/-- Eye aspect ratio from its four landmark points, app.py lines 100–102:
vertical span over horizontal span. -/
noncomputable def earOf (vTop vBottom hLeft hRight : LandmarkPoint) : ℝ :=
  calculate_distance vTop vBottom / calculate_distance hLeft hRight

/-- Mouth aspect ratio from its four landmark points, app.py lines
107–109: vertical span over horizontal span. -/
noncomputable def marOf (vTop vBottom hLeft hRight : LandmarkPoint) : ℝ :=
  calculate_distance vTop vBottom / calculate_distance hLeft hRight

/-- Translation of a landmark by a constant 2-D offset. -/
def translateP (p : LandmarkPoint) (dx dy : ℝ) : LandmarkPoint :=
  ⟨p.x + dx, p.y + dy⟩

/-! ## Helper lemmas -/

/-- Translating both endpoints by the same offset leaves the Euclidean
distance of app.py lines 63–64 unchanged. -/
lemma calculate_distance_translate (p q : LandmarkPoint) (dx dy : ℝ) :
    calculate_distance (translateP p dx dy) (translateP q dx dy) =
      calculate_distance p q := by
  unfold calculate_distance translateP
  congr 1
  ring

/-- Closed-eyes counter after a detected-face frame, spelled out. -/
lemma stepFrame_some_drowsy (s : MissionState) (f : FrameSample) :
    (stepFrame s (some f)).drowsy_counter =
      (if f.ear < EAR_THRESHOLD then s.drowsy_counter + 1 else 0) := rfl

/-- Yawn counter after a detected-face frame, spelled out. -/
lemma stepFrame_some_yawn (s : MissionState) (f : FrameSample) :
    (stepFrame s (some f)).yawn_counter =
      (if f.mar > MAR_THRESHOLD then s.yawn_counter + 1 else 0) := rfl

/-- Microsleep total after a detected-face frame, spelled out. -/
lemma stepFrame_some_total_microsleeps (s : MissionState) (f : FrameSample) :
    (stepFrame s (some f)).total_microsleeps =
      (if (if f.ear < EAR_THRESHOLD then s.drowsy_counter + 1 else 0) =
          MICROSLEEP_LIMIT
        then s.total_microsleeps + 1 else s.total_microsleeps) := rfl

/-- Yawn total after a detected-face frame, spelled out. -/
lemma stepFrame_some_total_yawns (s : MissionState) (f : FrameSample) :
    (stepFrame s (some f)).total_yawns =
      (if (if f.mar > MAR_THRESHOLD then s.yawn_counter + 1 else 0) = 15
        then s.total_yawns + 1 else s.total_yawns) := rfl

/-- A single frame never decreases the microsleep total. -/
lemma stepFrame_microsleeps_le (s : MissionState) (inp : Option FrameSample) :
    s.total_microsleeps ≤ (stepFrame s inp).total_microsleeps := by
  cases inp with
  | none => exact le_refl _
  | some f =>
      simp only [stepFrame]
      split_ifs <;> omega

/-- A single frame never decreases the yawn total. -/
lemma stepFrame_yawns_le (s : MissionState) (inp : Option FrameSample) :
    s.total_yawns ≤ (stepFrame s inp).total_yawns := by
  cases inp with
  | none => exact le_refl _
  | some f =>
      simp only [stepFrame]
      split_ifs <;> omega

/-- Across a whole run of frames the microsleep total never decreases. -/
lemma runFrames_microsleeps_le :
    ∀ (l : List (Option FrameSample)) (s : MissionState),
      s.total_microsleeps ≤ (runFrames s l).total_microsleeps := by
  intro l
  induction l with
  | nil => intro s; exact le_refl _
  | cons a l ih =>
      intro s
      exact le_trans (stepFrame_microsleeps_le s a) (ih (stepFrame s a))

/-- Across a whole run of frames the yawn total never decreases. -/
lemma runFrames_yawns_le :
    ∀ (l : List (Option FrameSample)) (s : MissionState),
      s.total_yawns ≤ (runFrames s l).total_yawns := by
  intro l
  induction l with
  | nil => intro s; exact le_refl _
  | cons a l ih =>
      intro s
      exact le_trans (stepFrame_yawns_le s a) (ih (stepFrame s a))

/-- While the closed-eyes counter starts at or above `MICROSLEEP_LIMIT`
and never passes through 0 along a run, the microsleep total is frozen:
each step keeps the counter at or above the limit and leaves the total
unchanged. -/
lemma runFrames_no_reset_no_count :
    ∀ (l : List (Option FrameSample)) (s : MissionState),
      MICROSLEEP_LIMIT ≤ s.drowsy_counter →
      (∀ n, (runFrames s (l.take n)).drowsy_counter ≠ 0) →
      (runFrames s l).total_microsleeps = s.total_microsleeps := by
  intro l
  induction l with
  | nil => intro s _ _; rfl
  | cons a l ih =>
      intro s hs hnz
      have h1 : (stepFrame s a).drowsy_counter ≠ 0 := by
        have h := hnz 1
        simpa [runFrames] using h
      have hstep : MICROSLEEP_LIMIT ≤ (stepFrame s a).drowsy_counter ∧
          (stepFrame s a).total_microsleeps = s.total_microsleeps := by
        cases a with
        | none => exact ⟨hs, rfl⟩
        | some f =>
            simp only [stepFrame, MICROSLEEP_LIMIT] at h1 hs ⊢
            split_ifs with hear <;> (simp_all; try omega)
      have hnz' : ∀ n,
          (runFrames (stepFrame s a) (l.take n)).drowsy_counter ≠ 0 := by
        intro n
        have h := hnz (n + 1)
        simpa [runFrames, List.take_succ_cons] using h
      have h2 : runFrames s (a :: l) = runFrames (stepFrame s a) l := rfl
      rw [h2, ih (stepFrame s a) hstep.1 hnz', hstep.2]

/-! ## Claims -/

/-- Claim C3: on every detected-face frame the closed-eyes counter
increments by exactly 1 when `EAR < 0.20` and otherwise resets to
exactly 0, and independently the yawn counter increments by exactly 1
when `MAR > 0.40` and otherwise resets to exactly 0; there is no gradual
decay and no upper clamp (app.py lines 124–133). -/
theorem counter_update_rule :
    ∀ (s : MissionState) (f : FrameSample),
      (stepFrame s (some f)).drowsy_counter =
        (if f.ear < EAR_THRESHOLD then s.drowsy_counter + 1 else 0) ∧
      (stepFrame s (some f)).yawn_counter =
        (if f.mar > MAR_THRESHOLD then s.yawn_counter + 1 else 0) := by
  intro s f
  refine ⟨?_, ?_⟩ <;> simp [stepFrame]

/-- Claim C9: a frame with no detected face leaves the whole session
state (both hysteresis counters, both event totals, both history
buffers) exactly unchanged and writes no telemetry row (the entire
per-face block of app.py lines 93–176 is skipped). -/
theorem noface_frame_noop :
    ∀ (s : MissionState) (t : ℚ),
      stepFrame s none = s ∧ frameLogs none t = false := by
  intro s t
  exact ⟨rfl, rfl⟩

/-- Claim C10: each frame leaves each event total unchanged or
increments it by exactly 1, and across every frame sequence
`total_microsleeps` and `total_yawns` are monotonically non-decreasing —
nothing in the loop ever resets or decreases them (app.py lines
136–137 are the only writes). -/
theorem totals_monotone :
    (∀ (s : MissionState) (inp : Option FrameSample),
      ((stepFrame s inp).total_microsleeps = s.total_microsleeps ∨
        (stepFrame s inp).total_microsleeps = s.total_microsleeps + 1) ∧
      ((stepFrame s inp).total_yawns = s.total_yawns ∨
        (stepFrame s inp).total_yawns = s.total_yawns + 1)) ∧
    (∀ (s : MissionState) (l : List (Option FrameSample)),
      s.total_microsleeps ≤ (runFrames s l).total_microsleeps ∧
      s.total_yawns ≤ (runFrames s l).total_yawns) := by
  constructor
  · intro s inp
    cases inp with
    | none => exact ⟨Or.inl rfl, Or.inl rfl⟩
    | some f =>
        refine ⟨?_, ?_⟩
        · rw [stepFrame_some_total_microsleeps]
          split_ifs <;> simp
        · rw [stepFrame_some_total_yawns]
          split_ifs <;> simp
  · intro s l
    exact ⟨runFrames_microsleeps_le l s, runFrames_yawns_le l s⟩

/-- Claim C4 counterexample: the claim says the closed-eyes counter is
exactly 0 after a no-signal frame, but a no-face frame skips the whole
update block, so a counter standing at 10 stays at 10. -/
theorem noface_counter_not_reset :
    (stepFrame ⟨10, 0, 0, 0, [], []⟩ none).drowsy_counter = 10 ∧
      ¬((stepFrame ⟨10, 0, 0, 0, [], []⟩ none).drowsy_counter = 0) := by
  exact ⟨rfl, by decide⟩

/-- Claim C4 (amended): after a no-signal frame the closed-eyes counter
keeps its previous value (it is neither incremented nor reset), and the
frame reports the default neutral `NONE` stage — no caution or critical
rule is evaluated for it. -/
theorem noface_stage_neutral :
    ∀ (s : MissionState) (t : ℚ),
      (stepFrame s none).drowsy_counter = s.drowsy_counter ∧
      frameStage s none t = AlarmStage.NONE := by
  intro s t
  exact ⟨rfl, rfl⟩

/-- Claim C5: the mission grade is first-match-wins over S, A, C, F in
that order, `total_yawns` gates only the S tier, and the spec's four
sample points evaluate as stated (app.py lines 215–218). -/
theorem mission_grade_tiers :
    (∀ ms ty, ms = 0 ∧ ty < 2 → mission_grade ms ty = MissionGrade.S) ∧
    (∀ ms ty, ¬(ms = 0 ∧ ty < 2) → ms < 3 →
      mission_grade ms ty = MissionGrade.A) ∧
    (∀ ms ty, ¬(ms = 0 ∧ ty < 2) → ¬(ms < 3) → ms < 6 →
      mission_grade ms ty = MissionGrade.C) ∧
    (∀ ms ty, ¬(ms = 0 ∧ ty < 2) → ¬(ms < 3) → ¬(ms < 6) →
      mission_grade ms ty = MissionGrade.F) ∧
    mission_grade 0 1 = MissionGrade.S ∧
    (∀ ty, mission_grade 2 ty = MissionGrade.A) ∧
    (∀ ty, mission_grade 4 ty = MissionGrade.C) ∧
    (∀ ty, mission_grade 6 ty = MissionGrade.F) := by
  refine ⟨?_, ?_, ?_, ?_, by decide, ?_, ?_, ?_⟩
  · intro ms ty h
    simp only [mission_grade]
    rw [if_pos h]
  · intro ms ty h1 h2
    simp only [mission_grade]
    rw [if_neg h1, if_pos h2]
  · intro ms ty h1 h2 h3
    simp only [mission_grade]
    rw [if_neg h1, if_neg h2, if_pos h3]
  · intro ms ty h1 h2 h3
    simp only [mission_grade]
    rw [if_neg h1, if_neg h2, if_neg h3]
  · intro ty
    simp [mission_grade]
  · intro ty
    simp [mission_grade]
  · intro ty
    simp [mission_grade]

/-- Claim C5 witness: the tier rules applied at the spec's sample
points. -/
theorem mission_grade_tiers_witness :
    mission_grade 0 1 = MissionGrade.S ∧
    mission_grade 2 7 = MissionGrade.A ∧
    mission_grade 4 0 = MissionGrade.C ∧
    mission_grade 6 0 = MissionGrade.F :=
  ⟨mission_grade_tiers.1 0 1 ⟨rfl, by omega⟩,
   mission_grade_tiers.2.1 2 7 (by omega) (by omega),
   mission_grade_tiers.2.2.1 4 0 (by omega) (by omega) (by omega),
   mission_grade_tiers.2.2.2.1 6 0 (by omega) (by omega) (by omega)⟩

/-- Claim C6: the reported average EAR is the sum of the recorded values
divided by their count when the history is non-empty, and exactly 0 when
it is empty — the division is guarded (app.py line 212). -/
theorem avg_ear_guarded :
    avg_ear [] = 0 ∧
    ∀ h : List ℚ, h ≠ [] → avg_ear h = h.sum / (h.length : ℚ) := by
  exact ⟨rfl, fun h hne => if_neg hne⟩

/-- Claim C6 witness: the non-empty branch evaluated on a concrete
two-sample history. -/
theorem avg_ear_guarded_witness :
    avg_ear [1/5, 2/5] =
      ([1/5, 2/5] : List ℚ).sum / (([1/5, 2/5] : List ℚ).length : ℚ) :=
  avg_ear_guarded.2 [1/5, 2/5] (by simp)

/-- Claim C1: the per-frame stage obeys the fixed rule precedence of
app.py lines 139–170 — CAUTION for `5 < drowsy_counter < 15` (unless
the later yawn rule fires), CRITICAL for `15 ≤ drowsy_counter < 100`,
EMERGENCY for `drowsy_counter ≥ 100`, YAWN_WARNING last and only when
`yawn_counter > 10` and `drowsy_counter < 15`; in particular at
`drowsy_counter = 20`, `yawn_counter = 12` the stage is CRITICAL, not
YAWN_WARNING. -/
theorem stage_precedence :
    (∀ (ear mar : ℚ) (flash : Bool) (d y : Nat), 5 < d → d < 15 →
        ¬(10 < y) → statusStage ear mar d y flash = AlarmStage.CAUTION) ∧
    (∀ (ear mar : ℚ) (flash : Bool) (d y : Nat), 15 ≤ d → d < 100 →
        statusStage ear mar d y flash = AlarmStage.CRITICAL) ∧
    (∀ (ear mar : ℚ) (flash : Bool) (d y : Nat), 100 ≤ d →
        statusStage ear mar d y flash = AlarmStage.EMERGENCY) ∧
    (∀ (ear mar : ℚ) (flash : Bool) (d y : Nat), 10 < y → d < 15 →
        statusStage ear mar d y flash = AlarmStage.YAWN_WARNING) ∧
    (∀ (ear mar : ℚ) (flash : Bool),
        statusStage ear mar 20 12 flash = AlarmStage.CRITICAL ∧
        statusStage ear mar 20 12 flash ≠ AlarmStage.YAWN_WARNING) := by
  have hcrit : ∀ (ear mar : ℚ) (flash : Bool) (d y : Nat), 15 ≤ d → d < 100 →
      statusStage ear mar d y flash = AlarmStage.CRITICAL := by
    intro ear mar flash d y h1 h2
    simp only [statusStage, MICROSLEEP_LIMIT, EMERGENCY_LIMIT]
    split_ifs with hy hc he <;> first | rfl | omega
  refine ⟨?_, hcrit, ?_, ?_, ?_⟩
  · intro ear mar flash d y h1 h2 h3
    simp only [statusStage, MICROSLEEP_LIMIT, EMERGENCY_LIMIT]
    split_ifs with hy hc <;> first | rfl | omega
  · intro ear mar flash d y h1
    simp only [statusStage, MICROSLEEP_LIMIT, EMERGENCY_LIMIT]
    split_ifs <;> first | rfl | omega
  · intro ear mar flash d y h1 h2
    simp only [statusStage, MICROSLEEP_LIMIT]
    rw [if_pos ⟨h1, h2⟩]
  · intro ear mar flash
    have h := hcrit ear mar flash 20 12 (by omega) (by omega)
    exact ⟨h, by rw [h]; intro hx; cases hx⟩

/-- Claim C1 witness: the precedence rules applied at concrete counter
values, the spec's `eyes_count = 20`, `yawn_count = 12` boundary among
them. -/
theorem stage_precedence_witness :
    statusStage (15/100) (50/100) 20 12 false = AlarmStage.CRITICAL ∧
    statusStage (15/100) (50/100) 7 12 false = AlarmStage.YAWN_WARNING ∧
    statusStage (15/100) (10/100) 7 3 false = AlarmStage.CAUTION ∧
    statusStage (15/100) (10/100) 120 3 false = AlarmStage.EMERGENCY :=
  ⟨stage_precedence.2.1 (15/100) (50/100) false 20 12 (by omega) (by omega),
   stage_precedence.2.2.2.1 (15/100) (50/100) false 7 12 (by omega) (by omega),
   stage_precedence.1 (15/100) (10/100) false 7 3 (by omega) (by omega) (by omega),
   stage_precedence.2.2.1 (15/100) (10/100) false 120 3 (by omega)⟩

/-- Claim C2: `total_microsleeps` rises by exactly 1 on the frame where
the closed-eyes counter lands exactly on `MICROSLEEP_LIMIT = 15` and is
otherwise unchanged; it never rises while the counter is already at or
above 15, and along any run that starts at or above 15 and never passes
through 0 it stays frozen — it can rise again only after a reset to 0
and a climb back.  `total_yawns` follows the same equality-edge policy
at `yawn_counter = 15` (app.py lines 136–137). -/
theorem microsleep_rising_edge :
    (∀ (s : MissionState) (f : FrameSample),
      (stepFrame s (some f)).total_microsleeps =
        s.total_microsleeps +
          (if (stepFrame s (some f)).drowsy_counter = MICROSLEEP_LIMIT
            then 1 else 0)) ∧
    (∀ (s : MissionState) (f : FrameSample),
      MICROSLEEP_LIMIT ≤ s.drowsy_counter →
      (stepFrame s (some f)).total_microsleeps = s.total_microsleeps) ∧
    (∀ (s : MissionState) (l : List (Option FrameSample)),
      MICROSLEEP_LIMIT ≤ s.drowsy_counter →
      (∀ n, (runFrames s (l.take n)).drowsy_counter ≠ 0) →
      (runFrames s l).total_microsleeps = s.total_microsleeps) ∧
    (∀ (s : MissionState) (f : FrameSample),
      (stepFrame s (some f)).total_yawns =
        s.total_yawns +
          (if (stepFrame s (some f)).yawn_counter = 15 then 1 else 0)) := by
  refine ⟨?_, ?_, fun s l h1 h2 => runFrames_no_reset_no_count l s h1 h2, ?_⟩
  · intro s f
    rw [stepFrame_some_total_microsleeps, stepFrame_some_drowsy]
    split_ifs <;> omega
  · intro s f h
    rw [stepFrame_some_total_microsleeps]
    simp only [MICROSLEEP_LIMIT] at h ⊢
    by_cases he : f.ear < EAR_THRESHOLD
    · rw [if_pos he]
      split_ifs <;> omega
    · rw [if_neg he]
      split_ifs <;> simp_all
  · intro s f
    rw [stepFrame_some_total_yawns, stepFrame_some_yawn]
    split_ifs <;> omega

/-- Claim C2 witness: a state whose closed-eyes counter sits at 15 with
one microsleep already counted, run over one more closed-eyes frame:
the counter climbs to 16 and the total stays 1. -/
theorem microsleep_rising_edge_witness :
    (runFrames ⟨15, 0, 1, 0, [], []⟩
        [some ⟨1/10, 1/10⟩]).total_microsleeps = 1 ∧
    (stepFrame ⟨15, 0, 1, 0, [], []⟩
        (some ⟨1/10, 1/10⟩)).total_microsleeps = 1 := by
  constructor
  · refine microsleep_rising_edge.2.2.1 ⟨15, 0, 1, 0, [], []⟩
      [some ⟨1/10, 1/10⟩] (by norm_num [MICROSLEEP_LIMIT]) ?_
    intro n
    match n with
    | 0 => simp [runFrames]
    | n + 1 =>
        rw [List.take_of_length_le (by simp)]
        norm_num [runFrames, stepFrame, EAR_THRESHOLD]
  · exact microsleep_rising_edge.2.1 ⟨15, 0, 1, 0, [], []⟩
      ⟨1/10, 1/10⟩ (by norm_num [MICROSLEEP_LIMIT])

/-- Claim C7: adding the same 2-D offset to every landmark leaves both
the EAR and the MAR unchanged, since each is a ratio of Euclidean
distances between point pairs (app.py lines 63–64, 100–109; stated over
exact real arithmetic). -/
theorem ratio_translation_invariant :
    ∀ (p1 p2 p3 p4 q1 q2 q3 q4 : LandmarkPoint) (dx dy : ℝ),
      earOf (translateP p1 dx dy) (translateP p2 dx dy)
          (translateP p3 dx dy) (translateP p4 dx dy) = earOf p1 p2 p3 p4 ∧
      marOf (translateP q1 dx dy) (translateP q2 dx dy)
          (translateP q3 dx dy) (translateP q4 dx dy) = marOf q1 q2 q3 q4 := by
  intro p1 p2 p3 p4 q1 q2 q3 q4 dx dy
  refine ⟨?_, ?_⟩ <;>
    simp only [earOf, marOf, calculate_distance_translate]

/-- Claim C8 counterexample: the telemetry gate is not "approximately
once per 100 ms".  Frames at 20 ms and at 70 ms both log (two records
within 50 ms), while every one of the nine 100 ms periods between
t = 0.1 s and t = 1.0 s (sampled here at their midpoints 0.15 s, 0.25 s,
…, 0.95 s) logs nothing — the gate `int(t * 10) % 10 == 0` is true only
during the first 100 ms of each wall-clock second. -/
theorem telemetry_not_per_100ms :
    shouldLog (2/100) = true ∧ shouldLog (7/100) = true ∧
    shouldLog (15/100) = false ∧ shouldLog (25/100) = false ∧
    shouldLog (35/100) = false ∧ shouldLog (45/100) = false ∧
    shouldLog (55/100) = false ∧ shouldLog (65/100) = false ∧
    shouldLog (75/100) = false ∧ shouldLog (85/100) = false ∧
    shouldLog (95/100) = false := by
  refine ⟨?_, ?_, ?_, ?_, ?_, ?_, ?_, ?_, ?_, ?_, ?_⟩ <;>
    norm_num [shouldLog, pyInt]

/-- Claim C8 (amended): a telemetry row is written only on
detected-face frames, the gate is a deterministic function of the
wall-clock timestamp alone (not of any frame counter), and for
nonnegative time it fires exactly when the fractional part of the
second is below 1/10 — i.e. during the first 100 ms of every wall-clock
second, on every frame falling in that window, and never during the
remaining 900 ms. -/
theorem telemetry_log_gate :
    (∀ t : ℚ, frameLogs none t = false) ∧
    (∀ (f : FrameSample) (t : ℚ), frameLogs (some f) t = shouldLog t) ∧
    (∀ t : ℚ, 0 ≤ t → (shouldLog t = true ↔ Int.fract t < 1/10)) := by
  refine ⟨fun t => rfl, fun f t => rfl, ?_⟩
  intro t ht
  have hp : pyInt (t * 10) = Int.floor (t * 10) := if_pos (by positivity)
  have key : Int.floor (t * 10) =
      Int.floor (Int.fract t * 10) + 10 * Int.floor t := by
    conv_lhs => rw [show t * 10 = Int.fract t * 10 + ((10 * Int.floor t : ℤ) : ℚ) by
      rw [Int.fract]; push_cast; ring]
    exact Int.floor_add_int _ _
  have h0 : (0:ℚ) ≤ Int.fract t := Int.fract_nonneg t
  have h1 : Int.fract t < 1 := Int.fract_lt_one t
  have hb0 : 0 ≤ Int.floor (Int.fract t * 10) :=
    Int.floor_nonneg.mpr (by positivity)
  have hb1 : Int.floor (Int.fract t * 10) < 10 := by
    apply Int.floor_lt.mpr
    push_cast
    linarith
  have hmod : (Int.floor (Int.fract t * 10) + 10 * Int.floor t) % 10 =
      Int.floor (Int.fract t * 10) := by
    rw [Int.add_mul_emod_self_left]
    exact Int.emod_eq_of_lt hb0 hb1
  have hiff : shouldLog t = true ↔ Int.floor (Int.fract t * 10) = 0 := by
    simp [shouldLog, hp, key, hmod]
  rw [hiff, Int.floor_eq_zero_iff, Set.mem_Ico]
  constructor
  · intro h2
    linarith [h2.2]
  · intro h2
    constructor
    · positivity
    · linarith

/-- Claim C8 witness: the window characterization applied at t = 20 ms. -/
theorem telemetry_log_gate_witness :
    shouldLog (2/100) = true ↔ Int.fract ((2:ℚ)/100) < 1/10 :=
  telemetry_log_gate.2.2 (2/100) (by norm_num)

end Astromind
